import Mathlib

/-!
# Verification of the product / author / user CRUD surface

Shallow embedding of the lecture repository's REST handlers:
* `product/views.py` — function-based handlers (`product_list`,
  `product_detail`, `product_create`, `product_update`,
  `product_partial_update`, `product_delete`);
* `product/api_views.py` — the class-based `ProductView` handler;
* `product/serializers.py` — the three serializer field sets and their
  validation/save semantics;
* `nikoloz_mdinaradze_lecture/authors` — read-only author endpoints;
* `user/models.py` — the `CustomUser` model defaults.

The backing store is modelled as an explicit list of rows threaded through
each handler.  HTTP responses are a status code plus a structured body.
-/

/-- Categories are opaque in the excerpt; a category is identified by its id. -/
abbrev CategoryId := Nat

/-- Modelled from the spec: `product/models.py` is not in the excerpt.  The
spec's data model gives Product the fields `id` (unique, generated), `slug`
(unique string), `title` (string), `description` (string), `price` (numeric)
and `categories` (many-to-many to Category). -/
structure Product where
  id : Nat
  slug : String
  title : String
  description : String
  price : Int
  categories : List CategoryId
deriving DecidableEq

/-- The product table: rows in storage order, plus the next generated id. -/
structure Store where
  products : List Product
  nextId : Nat
deriving DecidableEq

/-- Lookup as in `get_object_or_404(Product, pk=pk)`: the first stored row whose primary
key equals `pk`, if any. -/
def Store.lookup (s : Store) (pk : Nat) : Option Product :=
  s.products.find? (fun p => p.id == pk)

/-- Writing the updated row back: every row with primary key `pk` is replaced
by `p` (the ORM keys rows by `pk`). -/
def Store.replace (s : Store) (pk : Nat) (p : Product) : Store :=
  { s with products := s.products.map (fun q => if q.id == pk then p else q) }

/-- Deletion via `obj.delete()`: remove every row with primary key `pk`. -/
def Store.erase (s : Store) (pk : Nat) : Store :=
  { s with products := s.products.filter (fun q => q.id != pk) }

/-- A parsed request body: each writable-looking field is either supplied or
absent.  `id?` and `categories?` may be supplied by a client but the
serializers treat them as read-only. -/
structure ProductInput where
  id? : Option Nat := none
  slug? : Option String := none
  title? : Option String := none
  description? : Option String := none
  price? : Option Int := none
  categories? : Option (List CategoryId) := none
deriving DecidableEq

/-- Field set of `ProductListSerializer`:
`['id', 'slug', 'title', 'description', 'price']`. -/
structure ProductListData where
  id : Nat
  slug : String
  title : String
  description : String
  price : Int
deriving DecidableEq

/-- Field set of `ProductDetailSerializer`: `'__all__'`, with `categories`
rendered by the nested read-only `CategorySerializer`. -/
structure ProductDetailData where
  id : Nat
  slug : String
  title : String
  description : String
  price : Int
  categories : List CategoryId
deriving DecidableEq

/-- Field set of `ProductCreateSerializer`:
`['id', 'slug', 'title', 'price']` — no description, no categories. -/
structure ProductCreateData where
  id : Nat
  slug : String
  title : String
  price : Int
deriving DecidableEq

/-- Rendering via `ProductListSerializer(obj).data`. -/
def ProductListSerializer.data (p : Product) : ProductListData :=
  { id := p.id, slug := p.slug, title := p.title,
    description := p.description, price := p.price }

/-- Rendering via `ProductDetailSerializer(obj).data`. -/
def ProductDetailSerializer.data (p : Product) : ProductDetailData :=
  { id := p.id, slug := p.slug, title := p.title,
    description := p.description, price := p.price,
    categories := p.categories }

/-- Rendering via `ProductCreateSerializer(obj).data`. -/
def ProductCreateSerializer.data (p : Product) : ProductCreateData :=
  { id := p.id, slug := p.slug, title := p.title, price := p.price }

/-- A response body: one of the serializer payload shapes, a field-to-message
error mapping, or empty (404 and 204 responses). -/
inductive Body where
  | empty : Body
  | list (items : List ProductListData) : Body
  | detail (d : ProductDetailData) : Body
  | created (c : ProductCreateData) : Body
  | errors (errs : List (String × String)) : Body
deriving DecidableEq

/-- An HTTP response: status code and body. -/
structure Response where
  status : Nat
  body : Body
deriving DecidableEq

/-- Is some stored product's slug equal to `sl`, excluding the instance with
primary key `excl` (on update the unique check skips the instance itself)? -/
def slugTaken (s : Store) (excl : Option Nat) (sl : String) : Bool :=
  s.products.any (fun p =>
    p.slug == sl && (match excl with | some pk => p.id != pk | none => true))

/-- A `required` error for field `name` when the serializer is not partial
and the field is absent. -/
def requiredErr (part : Bool) (name : String) (present : Bool) :
    List (String × String) :=
  if !part && !present then [(name, "This field is required.")] else []

/-- Modelled from the spec: the framework serializer layer is external to the
excerpt.  `ProductCreateSerializer.is_valid` checks its writable fields
(`slug`, `title`, `price`; `id` is a read-only generated key) — each required
unless `partial`, plus the unique validator on `slug` from the model's unique
constraint.  Returns the field-to-message error mapping. -/
def ProductCreateSerializer.errs (s : Store) (excl : Option Nat)
    (part : Bool) (inp : ProductInput) : List (String × String) :=
  requiredErr part "slug" inp.slug?.isSome ++
  (match inp.slug? with
   | some sl =>
     if slugTaken s excl sl then
       [("slug", "product with this slug already exists.")]
     else []
   | none => []) ++
  requiredErr part "title" inp.title?.isSome ++
  requiredErr part "price" inp.price?.isSome

/-- Modelled from the spec: `ProductDetailSerializer.is_valid`.  Writable
fields are `slug`, `title`, `description`, `price`; `id` is the read-only
generated key and `categories` is declared `read_only=True`. -/
def ProductDetailSerializer.errs (s : Store) (excl : Option Nat)
    (part : Bool) (inp : ProductInput) : List (String × String) :=
  requiredErr part "slug" inp.slug?.isSome ++
  (match inp.slug? with
   | some sl =>
     if slugTaken s excl sl then
       [("slug", "product with this slug already exists.")]
     else []
   | none => []) ++
  requiredErr part "title" inp.title?.isSome ++
  requiredErr part "description" inp.description?.isSome ++
  requiredErr part "price" inp.price?.isSome

/-- Modelled from the spec: `serializer.save()` with no instance creates a
row — the id is generated, the validated `slug`, `title`, `price` are written,
and the fields outside the create schema take their model defaults (empty
description, no categories).  Only reached when validation passed, so the
`getD` defaults are never used. -/
def ProductCreateSerializer.saveCreate (s : Store) (inp : ProductInput) :
    Product × Store :=
  let p : Product :=
    { id := s.nextId, slug := inp.slug?.getD "", title := inp.title?.getD "",
      description := "", price := inp.price?.getD 0, categories := [] }
  (p, { products := s.products ++ [p], nextId := s.nextId + 1 })

/-- Saving via `serializer.save()` with an instance, create schema: the provided
validated fields among `slug`, `title`, `price` are set on the instance;
everything else (id, description, categories) is untouched. -/
def ProductCreateSerializer.saveUpdate (p : Product) (inp : ProductInput) :
    Product :=
  { p with slug := inp.slug?.getD p.slug, title := inp.title?.getD p.title,
           price := inp.price?.getD p.price }

/-- Saving via `serializer.save()` with an instance, detail schema: the provided
validated fields among `slug`, `title`, `description`, `price` are set;
`id` and the read-only `categories` are untouched. -/
def ProductDetailSerializer.saveUpdate (p : Product) (inp : ProductInput) :
    Product :=
  { p with slug := inp.slug?.getD p.slug, title := inp.title?.getD p.title,
           description := inp.description?.getD p.description,
           price := inp.price?.getD p.price }

/-! ## Function-based views (`product/views.py`) -/

/-- Handler `product_list` (GET): serialize all products with the list schema. -/
def product_list (s : Store) : Response :=
  { status := 200, body := .list (s.products.map ProductListSerializer.data) }

/-- Handler `product_detail` (GET): 404 when `pk` resolves to nothing, else the
detail schema. -/
def product_detail (s : Store) (pk : Nat) : Response :=
  match s.lookup pk with
  | none => { status := 404, body := .empty }
  | some p => { status := 200, body := .detail (ProductDetailSerializer.data p) }

/-- Handler `product_create` (POST): validate with the create schema; on success save
and return 201 with the serializer data, else 400 with the errors. -/
def product_create (s : Store) (inp : ProductInput) : Response × Store :=
  let errs := ProductCreateSerializer.errs s none false inp
  if errs = [] then
    let ps := ProductCreateSerializer.saveCreate s inp
    ({ status := 201, body := .created (ProductCreateSerializer.data ps.1) },
     ps.2)
  else
    ({ status := 400, body := .errors errs }, s)

/-- Handler `product_update` (PUT): 404 when missing; else validate the body with
the *create* schema against the instance, save on success (200), 400 on
failure. -/
def product_update (s : Store) (pk : Nat) (inp : ProductInput) :
    Response × Store :=
  match s.lookup pk with
  | none => ({ status := 404, body := .empty }, s)
  | some obj =>
    let errs := ProductCreateSerializer.errs s (some pk) false inp
    if errs = [] then
      let p := ProductCreateSerializer.saveUpdate obj inp
      ({ status := 200, body := .created (ProductCreateSerializer.data p) },
       s.replace pk p)
    else
      ({ status := 400, body := .errors errs }, s)

/-- Handler `product_partial_update` (PATCH): as `product_update` but with
`partial=True`. -/
def product_partial_update (s : Store) (pk : Nat) (inp : ProductInput) :
    Response × Store :=
  match s.lookup pk with
  | none => ({ status := 404, body := .empty }, s)
  | some obj =>
    let errs := ProductCreateSerializer.errs s (some pk) true inp
    if errs = [] then
      let p := ProductCreateSerializer.saveUpdate obj inp
      ({ status := 200, body := .created (ProductCreateSerializer.data p) },
       s.replace pk p)
    else
      ({ status := 400, body := .errors errs }, s)

/-- Handler `product_delete` (DELETE): 404 when missing, else delete and 204 with an
empty body. -/
def product_delete (s : Store) (pk : Nat) : Response × Store :=
  match s.lookup pk with
  | none => ({ status := 404, body := .empty }, s)
  | some _ => ({ status := 204, body := .empty }, s.erase pk)

/-! ## Class-based view (`product/api_views.py`) -/

/-- Method `ProductView.get`: list when no pk is given, else detail with 404 on a
missing id. -/
def ProductView.get (s : Store) (pk? : Option Nat) : Response :=
  match pk? with
  | none =>
    { status := 200, body := .list (s.products.map ProductListSerializer.data) }
  | some pk =>
    match s.lookup pk with
    | none => { status := 404, body := .empty }
    | some obj =>
      { status := 200, body := .detail (ProductDetailSerializer.data obj) }

/-- Method `ProductView.post`: create with the create schema. -/
def ProductView.post (s : Store) (inp : ProductInput) : Response × Store :=
  let errs := ProductCreateSerializer.errs s none false inp
  if errs = [] then
    let ps := ProductCreateSerializer.saveCreate s inp
    ({ status := 201, body := .created (ProductCreateSerializer.data ps.1) },
     ps.2)
  else
    ({ status := 400, body := .errors errs }, s)

/-- Method `ProductView.put`: full update with the *detail* schema. -/
def ProductView.put (s : Store) (pk : Nat) (inp : ProductInput) :
    Response × Store :=
  match s.lookup pk with
  | none => ({ status := 404, body := .empty }, s)
  | some obj =>
    let errs := ProductDetailSerializer.errs s (some pk) false inp
    if errs = [] then
      let p := ProductDetailSerializer.saveUpdate obj inp
      ({ status := 200, body := .detail (ProductDetailSerializer.data p) },
       s.replace pk p)
    else
      ({ status := 400, body := .errors errs }, s)

/-- Method `ProductView.patch`: partial update with the detail schema. -/
def ProductView.patch (s : Store) (pk : Nat) (inp : ProductInput) :
    Response × Store :=
  match s.lookup pk with
  | none => ({ status := 404, body := .empty }, s)
  | some obj =>
    let errs := ProductDetailSerializer.errs s (some pk) true inp
    if errs = [] then
      let p := ProductDetailSerializer.saveUpdate obj inp
      ({ status := 200, body := .detail (ProductDetailSerializer.data p) },
       s.replace pk p)
    else
      ({ status := 400, body := .errors errs }, s)

/-- Method `ProductView.delete`: 404 when missing, else delete and 204. -/
def ProductView.delete (s : Store) (pk : Nat) : Response × Store :=
  match s.lookup pk with
  | none => ({ status := 404, body := .empty }, s)
  | some _ => ({ status := 204, body := .empty }, s.erase pk)

/-- The invariant from the spec: `slug` is unique across stored Products. -/
def Store.slugsUnique (s : Store) : Prop :=
  s.products.Pairwise (fun p q => p.slug ≠ q.slug)

/-! ## Author service (`nikoloz_mdinaradze_lecture/authors`) -/

/-- A calendar date for `born_date`. -/
structure Date where
  year : Nat
  month : Nat
  day : Nat
deriving DecidableEq

/-- The `Author` model: `fullname` (string) and `born_date` (date), plus the
generated primary key. -/
structure Author where
  id : Nat
  fullname : String
  born_date : Date
deriving DecidableEq

/-- The author table, rows in storage order. -/
structure AuthorStore where
  authors : List Author
deriving DecidableEq

/-- Serialized author payload. -/
structure AuthorData where
  id : Nat
  fullname : String
  born_date : Date
deriving DecidableEq

/-- Response body of the author endpoints. -/
inductive AuthorBody where
  | empty : AuthorBody
  | list (items : List AuthorData) : AuthorBody
  | detail (d : AuthorData) : AuthorBody
deriving DecidableEq

/-- A response of the author endpoints. -/
structure AuthorResponse where
  status : Nat
  body : AuthorBody
deriving DecidableEq

/-- Serialize one author row. -/
def AuthorSerializer.data (a : Author) : AuthorData :=
  { id := a.id, fullname := a.fullname, born_date := a.born_date }

/-- Modelled from the spec: `authors/views.py` is not in the excerpt.  The
spec says listing authors returns all stored authors in storage order and the
author surface is read-only, so the handler reads the table and returns it
unchanged. -/
def authors_list (s : AuthorStore) : AuthorResponse × AuthorStore :=
  ({ status := 200, body := .list (s.authors.map AuthorSerializer.data) }, s)

/-- Modelled from the spec: read-only detail lookup with 404 on a missing id. -/
def author_detail (s : AuthorStore) (pk : Nat) : AuthorResponse × AuthorStore :=
  match s.authors.find? (fun a => a.id == pk) with
  | none => ({ status := 404, body := .empty }, s)
  | some a => ({ status := 200, body := .detail (AuthorSerializer.data a) }, s)

/-- A routed URL pattern: path, handler name, and the HTTP methods the
handler accepts. -/
structure Route where
  path : String
  handler : String
  methods : List String
deriving DecidableEq

/-- Routes of `authors/urls.py`: exactly two patterns, both routed to read handlers.
The method lists are modelled from the spec: the author views are GET-only
(read-only list and detail lookup; no create/update/delete surface). -/
def authorUrlpatterns : List Route :=
  [{ path := "", handler := "authors_list", methods := ["GET"] },
   { path := "<int:pk>/", handler := "author_detail", methods := ["GET"] }]

/-! ## Custom user model (`user/models.py`) -/

/-- The `CustomUser` model fields (the auth/permission mixin fields are out
of the excerpt's scope).  `date_joined` is a timestamp modelled as a `Nat`. -/
structure CustomUser where
  email : String
  first_name : String
  last_name : String
  is_active : Bool
  is_staff : Bool
  date_joined : Nat
deriving DecidableEq

/-- Constructor arguments for a new `CustomUser`: only `email` is required
(`REQUIRED_FIELDS = []`), everything else optional. -/
structure CustomUserInput where
  email : String
  first_name? : Option String := none
  last_name? : Option String := none
  is_active? : Option Bool := none
  is_staff? : Option Bool := none
  date_joined? : Option Nat := none
deriving DecidableEq

/-- Instantiating a `CustomUser` at time `now`: the model declares
`first_name`/`last_name` blank-allowed character fields (empty by default),
`is_active = True`, `is_staff = False` and `date_joined = timezone.now`. -/
def CustomUser.create (now : Nat) (inp : CustomUserInput) : CustomUser :=
  { email := inp.email,
    first_name := inp.first_name?.getD "",
    last_name := inp.last_name?.getD "",
    is_active := inp.is_active?.getD true,
    is_staff := inp.is_staff?.getD false,
    date_joined := inp.date_joined?.getD now }

/-- The model sets `USERNAME_FIELD = 'email'`: email is the login identifier. -/
def CustomUser.USERNAME_FIELD : String := "email"

/-- Modelled from the spec: email uniqueness is enforced at the storage layer
(`unique=True` on the model; `user/managers.py` is not in the excerpt), so
inserting a user whose email is already stored fails. -/
def UserStore.insert (us : List CustomUser) (u : CustomUser) :
    Except String (List CustomUser) :=
  if us.any (fun v => v.email == u.email) then
    .error "user with this email address already exists."
  else
    .ok (us ++ [u])

/-- No two stored users share an email. -/
def emailsUnique (us : List CustomUser) : Prop :=
  us.Pairwise (fun u v => u.email ≠ v.email)

/-! ## Helper lemmas -/

/-- The row found for `pk` has primary key `pk`. -/
theorem Store.lookup_id {s : Store} {pk : Nat} {p : Product}
    (h : s.lookup pk = some p) : p.id = pk := by
  have := List.find?_some h
  simpa using this

/-- The looked-up row is a stored row. -/
theorem Store.lookup_mem {s : Store} {pk : Nat} {p : Product}
    (h : s.lookup pk = some p) : p ∈ s.products :=
  List.mem_of_find?_eq_some h

/-- List-level core of `Store.lookup_replace`. -/
theorem find?_map_replace (pk : Nat) (q : Product) (hq : q.id = pk) :
    ∀ (l : List Product) {p : Product},
      l.find? (fun x => x.id == pk) = some p →
      (l.map (fun x => if x.id == pk then q else x)).find?
        (fun x => x.id == pk) = some q := by
  intro l
  induction l with
  | nil => intro p h; simp at h
  | cons x xs ih =>
    intro p h
    cases hxb : (x.id == pk) with
    | true =>
      have hqb : (q.id == pk) = true := by simpa using hq
      simp [List.find?, hxb, hqb]
    | false =>
      rw [List.find?] at h
      rw [hxb] at h
      simp only [List.map_cons, hxb, Bool.false_eq_true, if_false]
      rw [List.find?, hxb]
      exact ih h

/-- After replacing `pk` by `q` (a row keyed `pk`), looking up `pk` finds
`q`, provided `pk` was present. -/
theorem Store.lookup_replace {s : Store} {pk : Nat} {p : Product}
    (q : Product) (hq : q.id = pk) (h : s.lookup pk = some p) :
    (s.replace pk q).lookup pk = some q :=
  find?_map_replace pk q hq s.products h

/-- Replacing the same row twice is the same as replacing it once. -/
theorem Store.replace_replace (s : Store) (pk : Nat) (q : Product) :
    (s.replace pk q).replace pk q = s.replace pk q := by
  unfold Store.replace
  simp only [List.map_map]
  congr 1
  apply List.map_congr_left
  intro x _
  by_cases hx : x.id = pk <;> by_cases hq : q.id = pk <;>
    simp [Function.comp, hx, hq]

/-- After erasing `pk`, looking up `pk` finds nothing. -/
theorem Store.lookup_erase (s : Store) (pk : Nat) :
    (s.erase pk).lookup pk = none := by
  unfold Store.lookup Store.erase
  apply List.find?_eq_none.mpr
  intro x hx
  have := (List.mem_filter.mp hx).2
  simpa using this

/-- The unique-slug check with the instance `pk` excluded is unaffected by
replacing the instance's row, when the replacement keeps the key `pk`. -/
theorem slugTaken_replace {q : Product} (s : Store) (pk : Nat) (sl : String)
    (hq : q.id = pk) :
    slugTaken (s.replace pk q) (some pk) sl = slugTaken s (some pk) sl := by
  unfold slugTaken Store.replace
  simp only [List.any_map]
  congr 1
  funext x
  by_cases hx : x.id = pk <;> simp [Function.comp, hx, hq]

/-- The create-schema full (non-partial) validation passes exactly when
`slug`, `title`, `price` are all supplied and the slug is not taken. -/
theorem createErrs_eq_nil {s : Store} {excl : Option Nat}
    {inp : ProductInput} :
    ProductCreateSerializer.errs s excl false inp = [] ↔
      ∃ sl ti pr, inp.slug? = some sl ∧ inp.title? = some ti ∧
        inp.price? = some pr ∧ slugTaken s excl sl = false := by
  unfold ProductCreateSerializer.errs requiredErr
  cases hsl : inp.slug? with
  | none => simp [hsl]
  | some sl =>
    cases hti : inp.title? <;> cases hpr : inp.price? <;>
      cases htk : slugTaken s excl sl <;> simp [hsl, hti, hpr, htk]

/-- The detail-schema full (non-partial) validation passes exactly when
`slug`, `title`, `description`, `price` are all supplied and the slug is not
taken. -/
theorem detailErrs_eq_nil {s : Store} {excl : Option Nat}
    {inp : ProductInput} :
    ProductDetailSerializer.errs s excl false inp = [] ↔
      ∃ sl ti de pr, inp.slug? = some sl ∧ inp.title? = some ti ∧
        inp.description? = some de ∧ inp.price? = some pr ∧
        slugTaken s excl sl = false := by
  unfold ProductDetailSerializer.errs requiredErr
  cases hsl : inp.slug? with
  | none => simp [hsl]
  | some sl =>
    cases hti : inp.title? <;> cases hde : inp.description? <;>
      cases hpr : inp.price? <;> cases htk : slugTaken s excl sl <;>
      simp [hsl, hti, hde, hpr, htk]

/-- Applying the create-schema field assignment twice is the same as once. -/
theorem createSaveUpdate_idem (p : Product)
    (inp : ProductInput) :
    ProductCreateSerializer.saveUpdate
      (ProductCreateSerializer.saveUpdate p inp) inp =
    ProductCreateSerializer.saveUpdate p inp := by
  unfold ProductCreateSerializer.saveUpdate
  cases hsl : inp.slug? <;> cases hti : inp.title? <;>
    cases hpr : inp.price? <;> simp

/-- Applying the detail-schema field assignment twice is the same as once. -/
theorem detailSaveUpdate_idem (p : Product)
    (inp : ProductInput) :
    ProductDetailSerializer.saveUpdate
      (ProductDetailSerializer.saveUpdate p inp) inp =
    ProductDetailSerializer.saveUpdate p inp := by
  unfold ProductDetailSerializer.saveUpdate
  cases hsl : inp.slug? <;> cases hti : inp.title? <;>
    cases hde : inp.description? <;> cases hpr : inp.price? <;> simp

/-! ## Concrete fixtures used by the witnesses -/

/-- A sample stored product. -/
def demoProduct : Product :=
  { id := 1, slug := "chair", title := "Chair", description := "wooden",
    price := 40, categories := [2] }

/-- A sample store holding `demoProduct`. -/
def demoStore : Store := { products := [demoProduct], nextId := 2 }

/-- A sample valid full-update body for the create schema. -/
def demoInput : ProductInput :=
  { slug? := some "table", title? := some "Table", price? := some 99 }

/-- A sample body that also smuggles in a description. -/
def demoInputD : ProductInput :=
  { slug? := some "table", title? := some "Table", price? := some 99,
    description? := some "sneaky" }

/-! ## Claims -/

/-- C1: the function-based full update (PUT) validates and writes only the
create-schema fields, so a supplied description never influences the result,
and the stored description after the update is whatever it was before. -/
theorem spec_C1_put_drops_description (s : Store) (pk : Nat)
    (inp : ProductInput) (p : Product) (hp : s.lookup pk = some p) :
    product_update s pk { inp with description? := none } =
      product_update s pk inp ∧
    ∀ q, (product_update s pk inp).2.lookup pk = some q →
      q.description = p.description := by
  constructor
  · rfl
  · intro q hq
    by_cases herr : ProductCreateSerializer.errs s (some pk) false inp = []
    · have hst : (product_update s pk inp).2 =
          s.replace pk (ProductCreateSerializer.saveUpdate p inp) := by
        simp [product_update, hp, herr]
      have hfound : (s.replace pk
            (ProductCreateSerializer.saveUpdate p inp)).lookup pk =
          some (ProductCreateSerializer.saveUpdate p inp) :=
        Store.lookup_replace _
          (by simpa [ProductCreateSerializer.saveUpdate] using Store.lookup_id hp)
          hp
      rw [hst, hfound] at hq
      have hqe := Option.some.inj hq
      rw [← hqe]
      rfl
    · have hst : (product_update s pk inp).2 = s := by
        simp [product_update, hp, herr]
      rw [hst, hp] at hq
      have hqe := Option.some.inj hq
      rw [← hqe]

/-- C1 witness at a concrete store and request. -/
theorem spec_C1_witness :
    product_update demoStore 1 { demoInputD with description? := none } =
      product_update demoStore 1 demoInputD ∧
    ∀ q, (product_update demoStore 1 demoInputD).2.lookup 1 = some q →
      q.description = demoProduct.description :=
  spec_C1_put_drops_description demoStore 1 demoInputD demoProduct rfl

/-- C2: the function-based `product_list`, `product_detail` and
`product_delete` agree with the class-based `ProductView` GET (list and
detail) and DELETE on status, body and resulting store, for every store and
id. -/
theorem spec_C2_function_class_agree (s : Store) (pk : Nat) :
    product_list s = ProductView.get s none ∧
    product_detail s pk = ProductView.get s (some pk) ∧
    product_delete s pk = ProductView.delete s pk :=
  ⟨rfl, rfl, rfl⟩

/-- A sample create body whose slug collides with the stored product. -/
def demoDupInput : ProductInput :=
  { slug? := some "chair", title? := some "Second chair", price? := some 5 }

/-- C3: creating with a slug equal to some stored product's slug fails
validation with 400 and leaves the store unchanged; and any create preserves
the slug-uniqueness invariant. -/
theorem spec_C3_duplicate_slug (s : Store) (inp : ProductInput) (sl : String)
    (hsl : inp.slug? = some sl) (hdup : slugTaken s none sl = true) :
    (product_create s inp).1.status = 400 ∧ (product_create s inp).2 = s ∧
    ∀ inp2, s.slugsUnique → (product_create s inp2).2.slugsUnique := by
  have herr : ProductCreateSerializer.errs s none false inp ≠ [] := by
    intro h
    obtain ⟨sl2, ti, pr, hsl2, _, _, htk⟩ :=
      createErrs_eq_nil.mp h
    rw [hsl] at hsl2
    cases Option.some.inj hsl2
    rw [hdup] at htk
    exact Bool.true_eq_false.mp htk
  refine ⟨by simp [product_create, herr], by simp [product_create, herr], ?_⟩
  intro inp2 huniq
  by_cases herr2 : ProductCreateSerializer.errs s none false inp2 = []
  · obtain ⟨sl2, ti2, pr2, hsl2, hti2, hpr2, htk2⟩ :=
      createErrs_eq_nil.mp herr2
    have hfresh : ∀ p ∈ s.products, p.slug ≠ sl2 := by
      intro p hp hcontra
      have : slugTaken s none sl2 = true := by
        unfold slugTaken
        rw [List.any_eq_true]
        exact ⟨p, hp, by simp [hcontra]⟩
      rw [htk2] at this
      exact Bool.false_eq_true.mp this
    have hst : (product_create s inp2).2 =
        { products := s.products ++
            [{ id := s.nextId, slug := sl2, title := ti2, description := "",
               price := pr2, categories := [] }],
          nextId := s.nextId + 1 } := by
      simp [product_create, herr2, ProductCreateSerializer.saveCreate,
        hsl2, hti2, hpr2]
    rw [hst]
    unfold Store.slugsUnique at *
    rw [List.pairwise_append]
    refine ⟨huniq, by simp, ?_⟩
    intro a ha b hb
    have hbe : b = { id := s.nextId, slug := sl2, title := ti2,
                     description := "", price := pr2, categories := [] } := by
      simpa using hb
    rw [hbe]
    exact hfresh a ha
  · have hst : (product_create s inp2).2 = s := by
      simp [product_create, herr2]
    rw [hst]
    exact huniq

/-- C3 witness at a concrete duplicate-slug request. -/
theorem spec_C3_witness :
    (product_create demoStore demoDupInput).1.status = 400 ∧
    (product_create demoStore demoDupInput).2 = demoStore ∧
    ∀ inp2, demoStore.slugsUnique → (product_create demoStore inp2).2.slugsUnique :=
  spec_C3_duplicate_slug demoStore demoDupInput "chair" rfl (by decide)

/-- C4: a create request with a fresh slug, a title and a price succeeds with
201, the body echoes exactly those three values plus the generated id, and
the generated id differs from every stored id. -/
theorem spec_C4_create_success (s : Store) (inp : ProductInput)
    (sl ti : String) (pr : Int)
    (hsl : inp.slug? = some sl) (hti : inp.title? = some ti)
    (hpr : inp.price? = some pr) (hfresh : slugTaken s none sl = false)
    (hid : ∀ p ∈ s.products, p.id < s.nextId) :
    product_create s inp =
      ({ status := 201,
         body := .created
           { id := s.nextId, slug := sl, title := ti, price := pr } },
       { products := s.products ++
           [{ id := s.nextId, slug := sl, title := ti, description := "",
              price := pr, categories := [] }],
         nextId := s.nextId + 1 }) ∧
    ∀ p ∈ s.products, p.id ≠ s.nextId := by
  have herr : ProductCreateSerializer.errs s none false inp = [] :=
    createErrs_eq_nil.mpr ⟨sl, ti, pr, hsl, hti, hpr, hfresh⟩
  constructor
  · simp [product_create, herr, ProductCreateSerializer.saveCreate,
      ProductCreateSerializer.data, hsl, hti, hpr]
  · intro p hp
    exact Nat.ne_of_lt (hid p hp)

/-- C4 witness at a concrete fresh-slug request. -/
theorem spec_C4_witness :
    product_create demoStore demoInput =
      ({ status := 201,
         body := .created
           { id := 2, slug := "table", title := "Table", price := 99 } },
       { products := demoStore.products ++
           [{ id := 2, slug := "table", title := "Table", description := "",
              price := 99, categories := [] }],
         nextId := 3 }) ∧
    ∀ p ∈ demoStore.products, p.id ≠ demoStore.nextId :=
  spec_C4_create_success demoStore demoInput "table" "Table" 99
    rfl rfl rfl (by decide) (by decide)

/-- C6: deleting an existing id returns 204 with an empty body and removes
the row, so a subsequent detail fetch is 404; detail, update, partial update
and delete on an id resolving to no row all return 404 (writes leaving the
store unchanged). -/
theorem spec_C6_delete_then_404 (s : Store) (pk pkm : Nat)
    (inp : ProductInput) (p : Product)
    (hp : s.lookup pk = some p) (hm : s.lookup pkm = none) :
    product_delete s pk = ({ status := 204, body := .empty }, s.erase pk) ∧
    (product_delete s pk).2.lookup pk = none ∧
    product_detail (product_delete s pk).2 pk =
      { status := 404, body := .empty } ∧
    product_detail s pkm = { status := 404, body := .empty } ∧
    product_update s pkm inp = ({ status := 404, body := .empty }, s) ∧
    product_partial_update s pkm inp = ({ status := 404, body := .empty }, s) ∧
    product_delete s pkm = ({ status := 404, body := .empty }, s) := by
  refine ⟨?_, ?_, ?_, ?_, ?_, ?_, ?_⟩ <;>
    simp [product_delete, product_detail, product_update,
      product_partial_update, hp, hm, Store.lookup_erase]

/-- Store-state idempotence of the function-based PUT. -/
theorem product_update_idem (s : Store) (pk : Nat) (inp : ProductInput) :
    (product_update (product_update s pk inp).2 pk inp).2 =
      (product_update s pk inp).2 := by
  cases hl : s.lookup pk with
  | none => simp [product_update, hl]
  | some p =>
    by_cases herr : ProductCreateSerializer.errs s (some pk) false inp = []
    · obtain ⟨sl, ti, pr, hsl, hti, hpr, htk⟩ :=
        createErrs_eq_nil.mp herr
      have hqid : (ProductCreateSerializer.saveUpdate p inp).id = pk := by
        simpa [ProductCreateSerializer.saveUpdate] using Store.lookup_id hl
      have hst : (product_update s pk inp).2 =
          s.replace pk (ProductCreateSerializer.saveUpdate p inp) := by
        simp [product_update, hl, herr]
      have hl2 :=
        Store.lookup_replace (ProductCreateSerializer.saveUpdate p inp) hqid hl
      have htk2 : slugTaken
          (s.replace pk (ProductCreateSerializer.saveUpdate p inp))
          (some pk) sl = false := by
        rw [slugTaken_replace s pk sl hqid]
        exact htk
      have herr2 : ProductCreateSerializer.errs
          (s.replace pk (ProductCreateSerializer.saveUpdate p inp))
          (some pk) false inp = [] :=
        createErrs_eq_nil.mpr
          ⟨sl, ti, pr, hsl, hti, hpr, htk2⟩
      rw [hst]
      simp [product_update, hl2, herr2,
        createSaveUpdate_idem, Store.replace_replace]
    · simp [product_update, hl, herr]

/-- Store-state idempotence of the class-based PUT. -/
theorem ProductView.put_idem (s : Store) (pk : Nat) (inp : ProductInput) :
    (ProductView.put (ProductView.put s pk inp).2 pk inp).2 =
      (ProductView.put s pk inp).2 := by
  cases hl : s.lookup pk with
  | none => simp [ProductView.put, hl]
  | some p =>
    by_cases herr : ProductDetailSerializer.errs s (some pk) false inp = []
    · obtain ⟨sl, ti, de, pr, hsl, hti, hde, hpr, htk⟩ :=
        detailErrs_eq_nil.mp herr
      have hqid : (ProductDetailSerializer.saveUpdate p inp).id = pk := by
        simpa [ProductDetailSerializer.saveUpdate] using Store.lookup_id hl
      have hst : (ProductView.put s pk inp).2 =
          s.replace pk (ProductDetailSerializer.saveUpdate p inp) := by
        simp [ProductView.put, hl, herr]
      have hl2 :=
        Store.lookup_replace (ProductDetailSerializer.saveUpdate p inp) hqid hl
      have htk2 : slugTaken
          (s.replace pk (ProductDetailSerializer.saveUpdate p inp))
          (some pk) sl = false := by
        rw [slugTaken_replace s pk sl hqid]
        exact htk
      have herr2 : ProductDetailSerializer.errs
          (s.replace pk (ProductDetailSerializer.saveUpdate p inp))
          (some pk) false inp = [] :=
        detailErrs_eq_nil.mpr
          ⟨sl, ti, de, pr, hsl, hti, hde, hpr, htk2⟩
      rw [hst]
      simp [ProductView.put, hl2, herr2,
        detailSaveUpdate_idem, Store.replace_replace]
    · simp [ProductView.put, hl, herr]

/-- C5: applying the same PUT twice yields the same stored state as once
(for both the function-based and the class-based PUT), and after a successful
function-based PUT the detail fetch reflects the updated slug, title and
price exactly. -/
theorem spec_C5_put_idempotent (s : Store) (pk : Nat) (inp : ProductInput) :
    (product_update (product_update s pk inp).2 pk inp).2 =
      (product_update s pk inp).2 ∧
    (ProductView.put (ProductView.put s pk inp).2 pk inp).2 =
      (ProductView.put s pk inp).2 ∧
    ∀ sl ti pr, inp.slug? = some sl → inp.title? = some ti →
      inp.price? = some pr → (product_update s pk inp).1.status = 200 →
      ∃ d, product_detail (product_update s pk inp).2 pk =
          { status := 200, body := .detail d } ∧
        d.slug = sl ∧ d.title = ti ∧ d.price = pr := by
  refine ⟨product_update_idem s pk inp, ProductView.put_idem s pk inp, ?_⟩
  intro sl ti pr hsl hti hpr h200
  cases hl : s.lookup pk with
  | none => simp [product_update, hl] at h200
  | some p =>
    by_cases herr : ProductCreateSerializer.errs s (some pk) false inp = []
    · have hqid : (ProductCreateSerializer.saveUpdate p inp).id = pk := by
        simpa [ProductCreateSerializer.saveUpdate] using Store.lookup_id hl
      have hst : (product_update s pk inp).2 =
          s.replace pk (ProductCreateSerializer.saveUpdate p inp) := by
        simp [product_update, hl, herr]
      have hl2 :=
        Store.lookup_replace (ProductCreateSerializer.saveUpdate p inp) hqid hl
      refine ⟨ProductDetailSerializer.data
        (ProductCreateSerializer.saveUpdate p inp), ?_, ?_, ?_, ?_⟩
      · rw [hst]
        simp [product_detail, hl2]
      · simp [ProductDetailSerializer.data,
          ProductCreateSerializer.saveUpdate, hsl]
      · simp [ProductDetailSerializer.data,
          ProductCreateSerializer.saveUpdate, hti]
      · simp [ProductDetailSerializer.data,
          ProductCreateSerializer.saveUpdate, hpr]
    · simp [product_update, hl, herr] at h200

/-- C5 witness: the detail fetch after a successful concrete PUT. -/
theorem spec_C5_witness :
    ∃ d, product_detail (product_update demoStore 1 demoInput).2 1 =
        { status := 200, body := .detail d } ∧
      d.slug = "table" ∧ d.title = "Table" ∧ d.price = 99 :=
  (spec_C5_put_idempotent demoStore 1 demoInput).2.2 "table" "Table" 99
    rfl rfl rfl (by decide)

/-- C6 witness: delete id 1 from the demo store, then read it and id 7. -/
theorem spec_C6_witness :
    product_delete demoStore 1 =
      ({ status := 204, body := .empty }, demoStore.erase 1) ∧
    (product_delete demoStore 1).2.lookup 1 = none ∧
    product_detail (product_delete demoStore 1).2 1 =
      { status := 404, body := .empty } ∧
    product_detail demoStore 7 = { status := 404, body := .empty } ∧
    product_update demoStore 7 demoInput =
      ({ status := 404, body := .empty }, demoStore) ∧
    product_partial_update demoStore 7 demoInput =
      ({ status := 404, body := .empty }, demoStore) ∧
    product_delete demoStore 7 = ({ status := 404, body := .empty }, demoStore) :=
  spec_C6_delete_then_404 demoStore 1 7 demoInput demoProduct rfl rfl

/-- A sample full-detail body that also smuggles in a categories list. -/
def demoInputCat : ProductInput :=
  { slug? := some "table", title? := some "Table",
    description? := some "new desc", price? := some 99,
    categories? := some [9] }

/-- C7: through the class-based PUT and PATCH, the result never depends on a
supplied categories value, and the stored categories of the addressed product
are unchanged by the operation. -/
theorem spec_C7_categories_read_only (s : Store) (pk : Nat)
    (inp : ProductInput) (p : Product) (hp : s.lookup pk = some p) :
    ProductView.put s pk { inp with categories? := none } =
      ProductView.put s pk inp ∧
    ProductView.patch s pk { inp with categories? := none } =
      ProductView.patch s pk inp ∧
    (∀ q, (ProductView.put s pk inp).2.lookup pk = some q →
      q.categories = p.categories) ∧
    (∀ q, (ProductView.patch s pk inp).2.lookup pk = some q →
      q.categories = p.categories) := by
  refine ⟨rfl, rfl, ?_, ?_⟩
  · intro q hq
    by_cases herr : ProductDetailSerializer.errs s (some pk) false inp = []
    · have hst : (ProductView.put s pk inp).2 =
          s.replace pk (ProductDetailSerializer.saveUpdate p inp) := by
        simp [ProductView.put, hp, herr]
      have hqid : (ProductDetailSerializer.saveUpdate p inp).id = pk := by
        simpa [ProductDetailSerializer.saveUpdate] using Store.lookup_id hp
      rw [hst, Store.lookup_replace _ hqid hp] at hq
      rw [← Option.some.inj hq]
      rfl
    · have hst : (ProductView.put s pk inp).2 = s := by
        simp [ProductView.put, hp, herr]
      rw [hst, hp] at hq
      rw [← Option.some.inj hq]
  · intro q hq
    by_cases herr : ProductDetailSerializer.errs s (some pk) true inp = []
    · have hst : (ProductView.patch s pk inp).2 =
          s.replace pk (ProductDetailSerializer.saveUpdate p inp) := by
        simp [ProductView.patch, hp, herr]
      have hqid : (ProductDetailSerializer.saveUpdate p inp).id = pk := by
        simpa [ProductDetailSerializer.saveUpdate] using Store.lookup_id hp
      rw [hst, Store.lookup_replace _ hqid hp] at hq
      rw [← Option.some.inj hq]
      rfl
    · have hst : (ProductView.patch s pk inp).2 = s := by
        simp [ProductView.patch, hp, herr]
      rw [hst, hp] at hq
      rw [← Option.some.inj hq]

/-- C7 witness: a concrete PUT/PATCH carrying a categories list. -/
theorem spec_C7_witness :
    ProductView.put demoStore 1 { demoInputCat with categories? := none } =
      ProductView.put demoStore 1 demoInputCat ∧
    ProductView.patch demoStore 1 { demoInputCat with categories? := none } =
      ProductView.patch demoStore 1 demoInputCat ∧
    (∀ q, (ProductView.put demoStore 1 demoInputCat).2.lookup 1 = some q →
      q.categories = demoProduct.categories) ∧
    (∀ q, (ProductView.patch demoStore 1 demoInputCat).2.lookup 1 = some q →
      q.categories = demoProduct.categories) :=
  spec_C7_categories_read_only demoStore 1 demoInputCat demoProduct rfl

/-- C8: the author URL surface has exactly the two GET routes (list and
detail) and no write route; listing returns all stored authors in storage
order; both reads leave the store unchanged, so repeated reads yield
identical results. -/
theorem spec_C8_authors_read_only (s : AuthorStore) (pk : Nat) :
    authorUrlpatterns.map Route.handler = ["authors_list", "author_detail"] ∧
    (∀ r ∈ authorUrlpatterns, r.methods = ["GET"]) ∧
    (authors_list s).1 =
      { status := 200, body := .list (s.authors.map AuthorSerializer.data) } ∧
    (authors_list s).2 = s ∧
    (author_detail s pk).2 = s ∧
    authors_list (authors_list s).2 = authors_list s ∧
    author_detail (author_detail s pk).2 pk = author_detail s pk := by
  have hdet : (author_detail s pk).2 = s := by
    cases hfind : s.authors.find? (fun a => a.id == pk) <;>
      simp [author_detail, hfind]
  refine ⟨rfl, by decide, rfl, rfl, hdet, rfl, ?_⟩
  rw [hdet]

/-- A sample stored author. -/
def demoAuthor : Author :=
  { id := 1, fullname := "Jane Austen",
    born_date := { year := 1775, month := 12, day := 16 } }

/-- A sample author store. -/
def demoAuthorStore : AuthorStore := { authors := [demoAuthor] }

/-- C8 witness: the list route is GET-only and a concrete read leaves the
concrete store unchanged. -/
theorem spec_C8_witness :
    ({ path := "", handler := "authors_list", methods := ["GET"] } :
      Route).methods = ["GET"] ∧
    (authors_list demoAuthorStore).2 = demoAuthorStore ∧
    (author_detail demoAuthorStore 1).2 = demoAuthorStore := by
  have h := spec_C8_authors_read_only demoAuthorStore 1
  exact ⟨h.2.1 _ (by simp [authorUrlpatterns]), h.2.2.2.1, h.2.2.2.2.1⟩

/-- C9: a `CustomUser` created without explicit optional fields gets
`is_active = true`, `is_staff = false`, `date_joined = now` and empty names;
email is the login identifier; a successful insert into a store with
pairwise-distinct emails keeps emails pairwise distinct. -/
theorem spec_C9_customuser_defaults (now : Nat) (e : String)
    (us us2 : List CustomUser) (u : CustomUser)
    (hins : UserStore.insert us u = .ok us2) (huniq : emailsUnique us) :
    CustomUser.create now { email := e } =
      { email := e, first_name := "", last_name := "", is_active := true,
        is_staff := false, date_joined := now } ∧
    CustomUser.USERNAME_FIELD = "email" ∧
    emailsUnique us2 := by
  refine ⟨rfl, rfl, ?_⟩
  unfold UserStore.insert at hins
  by_cases hdup : us.any (fun v => v.email == u.email) = true
  · rw [if_pos hdup] at hins
    simp at hins
  · rw [if_neg hdup] at hins
    have hus2 : us2 = us ++ [u] := (Except.ok.inj hins).symm
    rw [hus2]
    unfold emailsUnique at *
    rw [List.pairwise_append]
    refine ⟨huniq, by simp, ?_⟩
    intro a ha b hb
    have hbe : b = u := by simpa using hb
    rw [hbe]
    intro hcontra
    apply hdup
    rw [List.any_eq_true]
    exact ⟨a, ha, by simp [hcontra]⟩

/-- A sample user created with only an email supplied. -/
def demoUser : CustomUser := CustomUser.create 100 { email := "ada@example.com" }

/-- C9 witness: create and insert one concrete user into the empty store. -/
theorem spec_C9_witness :
    CustomUser.create 100 { email := "ada@example.com" } =
      { email := "ada@example.com", first_name := "", last_name := "",
        is_active := true, is_staff := false, date_joined := 100 } ∧
    CustomUser.USERNAME_FIELD = "email" ∧
    emailsUnique [demoUser] :=
  spec_C9_customuser_defaults 100 "ada@example.com" [] [demoUser] demoUser
    rfl (by simp [emailsUnique])

/-- A second stored product, for exercising the unique-slug error on update. -/
def demoSofa : Product :=
  { id := 2, slug := "sofa", title := "Sofa", description := "soft",
    price := 80, categories := [] }

/-- A store holding two products. -/
def demoStore2 : Store := { products := [demoProduct, demoSofa], nextId := 3 }

/-- A body that is invalid for every write schema against `demoStore2`:
it omits title/description/price and reuses the stored slug `chair`. -/
def demoBadInput : ProductInput := { slug? := some "chair" }

/-- C10: whenever serializer validation fails, every write endpoint (create,
full update, partial update, function-based and class-based) returns 400
carrying the per-field error mapping and leaves the store unchanged. -/
theorem spec_C10_invalid_write_atomic (s : Store) (pk : Nat)
    (inp : ProductInput) (p : Product) :
    (ProductCreateSerializer.errs s none false inp ≠ [] →
      product_create s inp =
        ({ status := 400,
           body := .errors (ProductCreateSerializer.errs s none false inp) },
         s) ∧
      ProductView.post s inp =
        ({ status := 400,
           body := .errors (ProductCreateSerializer.errs s none false inp) },
         s)) ∧
    (s.lookup pk = some p →
      (ProductCreateSerializer.errs s (some pk) false inp ≠ [] →
        product_update s pk inp =
          ({ status := 400,
             body := .errors (ProductCreateSerializer.errs s (some pk) false inp) },
           s)) ∧
      (ProductCreateSerializer.errs s (some pk) true inp ≠ [] →
        product_partial_update s pk inp =
          ({ status := 400,
             body := .errors (ProductCreateSerializer.errs s (some pk) true inp) },
           s)) ∧
      (ProductDetailSerializer.errs s (some pk) false inp ≠ [] →
        ProductView.put s pk inp =
          ({ status := 400,
             body := .errors (ProductDetailSerializer.errs s (some pk) false inp) },
           s)) ∧
      (ProductDetailSerializer.errs s (some pk) true inp ≠ [] →
        ProductView.patch s pk inp =
          ({ status := 400,
             body := .errors (ProductDetailSerializer.errs s (some pk) true inp) },
           s))) := by
  constructor
  · intro hne
    constructor <;> simp [product_create, ProductView.post, hne]
  · intro hp
    refine ⟨?_, ?_, ?_, ?_⟩ <;> intro hne <;>
      simp [product_update, product_partial_update, ProductView.put,
        ProductView.patch, hp, hne]

/-- C10 witness: the invalid body rejected by all six write paths against the
two-product store. -/
theorem spec_C10_witness :
    product_create demoStore2 demoBadInput =
      ({ status := 400,
         body := .errors
           (ProductCreateSerializer.errs demoStore2 none false demoBadInput) },
       demoStore2) ∧
    ProductView.post demoStore2 demoBadInput =
      ({ status := 400,
         body := .errors
           (ProductCreateSerializer.errs demoStore2 none false demoBadInput) },
       demoStore2) ∧
    product_update demoStore2 2 demoBadInput =
      ({ status := 400,
         body := .errors
           (ProductCreateSerializer.errs demoStore2 (some 2) false demoBadInput) },
       demoStore2) ∧
    product_partial_update demoStore2 2 demoBadInput =
      ({ status := 400,
         body := .errors
           (ProductCreateSerializer.errs demoStore2 (some 2) true demoBadInput) },
       demoStore2) ∧
    ProductView.put demoStore2 2 demoBadInput =
      ({ status := 400,
         body := .errors
           (ProductDetailSerializer.errs demoStore2 (some 2) false demoBadInput) },
       demoStore2) ∧
    ProductView.patch demoStore2 2 demoBadInput =
      ({ status := 400,
         body := .errors
           (ProductDetailSerializer.errs demoStore2 (some 2) true demoBadInput) },
       demoStore2) := by
  have h := spec_C10_invalid_write_atomic demoStore2 2 demoBadInput demoSofa
  have h2 := h.2 rfl
  exact ⟨(h.1 (by decide)).1, (h.1 (by decide)).2, h2.1 (by decide),
    h2.2.1 (by decide), h2.2.2.1 (by decide), h2.2.2.2 (by decide)⟩
